import Mathlib

/-!
Shallow embedding of the AI Autonomous City Simulation
(src/city_state.py, src/agents.py, src/workflow.py).

Python floats are modelled as rationals (`Rat`); every constant in the
source is an exact decimal.  The injected random source
(`random.Random`) is modelled as a stream of rationals together with a
cursor: each call to `random()` reads the stream at the cursor and
advances it.  Mutation of Python objects is modelled by explicit state
passing: each method returns every object it received a mutable
reference to.
-/

/-- The six action types of `ActionType = Literal[...]` in src/agents.py. -/
inductive ActionType where
  | work
  | shop
  | rest
  | patrol
  | crime
  | socialize
deriving DecidableEq, Repr

/-- Dataclass `PlannedAction` of src/agents.py. -/
structure PlannedAction where
  action_type : ActionType
  target : Option String := none
  note : String := ""
deriving DecidableEq, Repr

/-- Dataclass `DayContext` of src/city_state.py. -/
structure DayContext where
  day : Int
  weather : String
  events : List String := []
deriving DecidableEq, Repr

/-- Dataclass `ActionLogEntry` of src/city_state.py. -/
structure ActionLogEntry where
  day : Int
  agent_id : Int
  agent_name : String
  role : String
  description : String
deriving DecidableEq, Repr

/-- The fixed-key `daily_stats` dictionary installed by
`CityState.reset_daily_stats` in src/city_state.py; the seven keys are
modelled as fields. -/
structure DailyStats where
  work_count : Rat := 0
  shop_count : Rat := 0
  patrol_count : Rat := 0
  crime_attempts : Rat := 0
  crime_prevented : Rat := 0
  social_interactions : Rat := 0
  rest_count : Rat := 0
deriving DecidableEq, Repr

/-- Dataclass `CityState` of src/city_state.py, with its field defaults. -/
structure CityState where
  day : Int := 1
  economy : Rat := 100
  safety : Rat := 4/5
  happiness : Rat := 4/5
  daily_stats : DailyStats := {}
  logs : List ActionLogEntry := []
deriving DecidableEq, Repr

/-- Method `CityState.reset_daily_stats`: set every counter to 0. -/
def CityState.reset_daily_stats (c : CityState) : CityState :=
  { c with daily_stats :=
      { work_count := 0, shop_count := 0, patrol_count := 0,
        crime_attempts := 0, crime_prevented := 0,
        social_interactions := 0, rest_count := 0 } }

/-- Method `CityState.log_action`: append one entry to the log. -/
def CityState.log_action (c : CityState) (entry : ActionLogEntry) : CityState :=
  { c with logs := c.logs ++ [entry] }

/-- The clamping idiom `max(0.0, min(1.0, x))` used throughout the source. -/
def clamp01 (x : Rat) : Rat := max 0 (min 1 x)

/-- Method `CityState.clamp_metrics`: clamp safety and happiness to [0,1]. -/
def CityState.clamp_metrics (c : CityState) : CityState :=
  { c with safety := clamp01 c.safety, happiness := clamp01 c.happiness }

/-- The injected random source (`random.Random(seed)` of src/workflow.py):
a stream of draws and a cursor.  Deterministic by construction. -/
structure Rng where
  stream : Nat → Rat
  idx : Nat := 0

/-- Call `rng.random()`: one uniform draw; reads the stream and advances the cursor. -/
def Rng.random (r : Rng) : Rat × Rng :=
  (r.stream r.idx, { r with idx := r.idx + 1 })

/-- Call `rng.choice(seq)`: uniform choice over a small list, consuming one draw. -/
def Rng.choice (r : Rng) (l : List String) : String × Rng :=
  let pr := r.random
  (l.getD ((pr.1 * (l.length : Rat)).floor.toNat) "", pr.2)

/-- Dataclass `Agent` of src/agents.py, with its field defaults. -/
structure Agent where
  id : Int
  name : String
  role : String
  money : Rat := 50
  energy : Rat := 1
  mood : Rat := 1/2
deriving DecidableEq, Repr

/-- Result of `Agent.plan`: the returned `PlannedAction` together with the
post-call state of every object the method had a mutable reference to
(`self`, `city`, `ctx`, `rng`). -/
structure PlanResult where
  action : PlannedAction
  agent : Agent
  city : CityState
  ctx : DayContext
  rng : Rng

/-- Method `Agent.plan` of src/agents.py: rule-based decision, one uniform draw
per role branch; the fatigue check (`energy < 0.3`) precedes role dispatch
and draws nothing. -/
def Agent.plan (self : Agent) (city : CityState) (ctx : DayContext) (rng : Rng) :
    PlanResult :=
  if self.energy < 3/10 then
    ⟨{ action_type := .rest, note := "Too tired, staying home." }, self, city, ctx, rng⟩
  else if self.role = "worker" then
    let pr := rng.random
    let p := pr.1
    if p < 7/10 then
      ⟨{ action_type := .work, target := some "office" }, self, city, ctx, pr.2⟩
    else if p < 85/100 then
      ⟨{ action_type := .socialize, target := some "cafe" }, self, city, ctx, pr.2⟩
    else
      ⟨{ action_type := .rest }, self, city, ctx, pr.2⟩
  else if self.role = "shop_owner" then
    let pr := rng.random
    let p := pr.1
    if city.economy < 80 ∧ p < 3/10 then
      ⟨{ action_type := .rest, note := "Economy looks bad." }, self, city, ctx, pr.2⟩
    else if p < 3/4 then
      ⟨{ action_type := .shop, target := some "store" }, self, city, ctx, pr.2⟩
    else
      ⟨{ action_type := .socialize, target := some "market" }, self, city, ctx, pr.2⟩
  else if self.role = "student" then
    let pr := rng.random
    let p := pr.1
    if p < 1/2 then
      ⟨{ action_type := .work, target := some "school", note := "Studying." }, self, city, ctx, pr.2⟩
    else if p < 8/10 then
      ⟨{ action_type := .socialize, target := some "park" }, self, city, ctx, pr.2⟩
    else
      ⟨{ action_type := .rest }, self, city, ctx, pr.2⟩
  else if self.role = "police" then
    let pr := rng.random
    let p := pr.1
    let base_patrol := 6/10 + (1/2 - city.safety)
    if p < base_patrol then
      ⟨{ action_type := .patrol, target := some "streets" }, self, city, ctx, pr.2⟩
    else if p < 9/10 then
      ⟨{ action_type := .socialize, target := some "station" }, self, city, ctx, pr.2⟩
    else
      ⟨{ action_type := .rest }, self, city, ctx, pr.2⟩
  else
    let pr := rng.random
    let p := pr.1
    if p < 4/10 then
      ⟨{ action_type := .work, target := some "generic_job" }, self, city, ctx, pr.2⟩
    else if p < 7/10 then
      ⟨{ action_type := .socialize, target := some "square" }, self, city, ctx, pr.2⟩
    else
      ⟨{ action_type := .rest }, self, city, ctx, pr.2⟩

/-- Result of `Agent.act`: the post-call state of `self`, `city` and `rng`. -/
structure ActResult where
  agent : Agent
  city : CityState
  rng : Rng

/-- Method `Agent.act` of src/agents.py: execute one planned action, mutate agent
and city, clamp the agent's energy and mood, and append exactly one log
entry (with a generic fallback description when no branch set one). -/
def Agent.act (self : Agent) (plan : PlannedAction) (city : CityState) (rng : Rng) :
    ActResult :=
  let step : Agent × CityState × Rng × String :=
    match plan.action_type with
    | .work =>
      let income : Rat := 10
      ({ self with money := self.money + income,
                   energy := self.energy - 2/10,
                   mood := self.mood + 5/100 },
       { city with
          daily_stats := { city.daily_stats with
            work_count := city.daily_stats.work_count + 1 },
          economy := city.economy + 3/2 },
       rng,
       "worked at " ++ (plan.target.getD "workplace") ++ " and earned 10.0.")
    | .shop =>
      let cost : Rat := 5
      if self.money ≥ cost then
        ({ self with money := self.money - cost,
                     energy := self.energy - 1/10,
                     mood := self.mood + 1/10 },
         { city with
            daily_stats := { city.daily_stats with
              shop_count := city.daily_stats.shop_count + 1 },
            economy := city.economy + 1 },
         rng,
         "ran the shop at " ++ (plan.target.getD "store") ++ ", trading with customers.")
      else
        (self, city, rng, "wanted to run the shop but lacked resources.")
    | .rest =>
      ({ self with energy := min 1 (self.energy + 4/10),
                   mood := self.mood + 5/100 },
       { city with
          daily_stats := { city.daily_stats with
            rest_count := city.daily_stats.rest_count + 1 } },
       rng,
       "stayed home to rest.")
    | .patrol =>
      ({ self with energy := self.energy - 2/10 },
       { city with
          daily_stats := { city.daily_stats with
            patrol_count := city.daily_stats.patrol_count + 1 } },
       rng,
       "patrolled the city streets.")
    | .crime =>
      let city1 : CityState :=
        { city with
            daily_stats := { city.daily_stats with
              crime_attempts := city.daily_stats.crime_attempts + 1 } }
      let self1 : Agent := { self with energy := self.energy - 2/10 }
      let success_prob : Rat := 3/10 + (1/2 - city1.safety)
      let pr := rng.random
      if pr.1 < success_prob then
        let gain : Rat := 15
        ({ self1 with money := self1.money + gain, mood := self1.mood + 1/10 },
         { city1 with safety := city1.safety - 5/100 },
         pr.2,
         "successfully committed a crime and gained 15.0.")
      else
        ({ self1 with mood := self1.mood - 2/10 },
         { city1 with
            daily_stats := { city1.daily_stats with
              crime_prevented := city1.daily_stats.crime_prevented + 1 } },
         pr.2,
         "attempted a crime but was caught or scared away.")
    | .socialize =>
      ({ self with energy := self.energy - 1/10, mood := self.mood + 1/10 },
       { city with
          daily_stats := { city.daily_stats with
            social_interactions := city.daily_stats.social_interactions + 1 } },
       rng,
       "socialized at " ++ (plan.target.getD "a public place") ++ ".")
  let self2 : Agent :=
    { step.1 with energy := clamp01 step.1.energy, mood := clamp01 step.1.mood }
  let city2 : CityState := step.2.1
  let desc : String := step.2.2.2
  let entry : ActionLogEntry :=
    { day := city2.day, agent_id := self2.id, agent_name := self2.name,
      role := self2.role,
      description := if desc = "" then "did nothing in particular." else desc }
  ⟨self2, city2.log_action entry, step.2.2.1⟩

/-- Python dict lookup on an association list kept in insertion order:
the most recent binding for a key wins (`plans.get(agent.id)` in
src/workflow.py). -/
def dictGet : List (Int × PlannedAction) → Int → Option PlannedAction
  | [], _ => none
  | (k, v) :: tail, key =>
    match dictGet tail key with
    | some v2 => some v2
    | none => if k = key then some v else none

/-- Result of the CITIZEN_PLANNING phase: post-phase roster, city, context
and rng, plus the plans dict in insertion (roster) order. -/
structure PlanningResult where
  agents : List Agent
  city : CityState
  ctx : DayContext
  rng : Rng
  plans : List (Int × PlannedAction)

/-- Phase `CitySimulationEngine._citizen_planning`: each agent plans in roster
order; plans are keyed by agent id. -/
def citizen_planning : List Agent → CityState → DayContext → Rng → PlanningResult
  | [], city, ctx, rng => ⟨[], city, ctx, rng, []⟩
  | a :: tail, city, ctx, rng =>
    let r := a.plan city ctx rng
    let pr := citizen_planning tail r.city r.ctx r.rng
    ⟨r.agent :: pr.agents, pr.city, pr.ctx, pr.rng, (r.agent.id, r.action) :: pr.plans⟩

/-- Result of the CITIZEN_ACTIONS phase. -/
structure ActionsResult where
  agents : List Agent
  city : CityState
  rng : Rng

/-- Phase `CitySimulationEngine._citizen_actions`: each agent executes its plan
in roster order; an agent whose id has no plan in the dict is skipped. -/
def citizen_actions : List Agent → List (Int × PlannedAction) → CityState → Rng → ActionsResult
  | [], _, city, rng => ⟨[], city, rng⟩
  | a :: tail, plans, city, rng =>
    match dictGet plans a.id with
    | none =>
      let ar := citizen_actions tail plans city rng
      ⟨a :: ar.agents, ar.city, ar.rng⟩
    | some p =>
      let r := a.act p city rng
      let ar := citizen_actions tail plans r.city r.rng
      ⟨r.agent :: ar.agents, ar.city, ar.rng⟩

/-- Phase `CitySimulationEngine._day_context`: draw weather by choice, then one
uniform draw selecting at most one city-wide event. -/
def day_context (city : CityState) (rng : Rng) : DayContext × Rng :=
  let wr := rng.choice ["sunny", "cloudy", "rainy", "windy"]
  let pr := wr.2.random
  let p := pr.1
  let events : List String :=
    if p < 1/10 then ["city_festival"]
    else if p < 18/100 then ["minor_economic_downturn"]
    else if p < 1/4 then ["crime_wave"]
    else []
  (⟨city.day, wr.1, events⟩, pr.2)

/-- Phase `CitySimulationEngine._city_update`: derive new economy, safety and
happiness from the day's stats, then clamp safety and happiness. -/
def city_update (city : CityState) : CityState :=
  let stats := city.daily_stats
  let economy1 := city.economy + 1/2 * stats.work_count + 3/10 * stats.shop_count
  let economy2 := economy1 * (995/1000)
  let safety1 := city.safety + 1/100 * stats.patrol_count
  let safety2 := safety1 - 3/100 * stats.crime_attempts
  let safety3 := safety2 + 2/100 * stats.crime_prevented
  let happiness1 := city.happiness + 1/100 * stats.social_interactions
  let happiness2 := happiness1 + 5/1000 * stats.rest_count
  let happiness3 := happiness2 - 15/1000 * stats.crime_attempts
  CityState.clamp_metrics
    { city with economy := economy2, safety := safety3, happiness := happiness3 }

/-- Result of one simulated day (`run` loop body in src/workflow.py). -/
structure DayResult where
  agents : List Agent
  city : CityState
  rng : Rng
  plans : List (Int × PlannedAction)

/-- One iteration of the day loop: DAY_START (reset stats), context,
CITIZEN_PLANNING, CITIZEN_ACTIONS, CITY_UPDATE, REPORTING (pure output,
no state change), NEXT_DAY (day += 1). -/
def runDay (agents : List Agent) (city : CityState) (rng : Rng) : DayResult :=
  let city0 := city.reset_daily_stats
  let cr := day_context city0 rng
  let pr := citizen_planning agents city0 cr.1 cr.2
  let ar := citizen_actions pr.agents pr.plans pr.city pr.rng
  let city1 := city_update ar.city
  let city2 := { city1 with day := city1.day + 1 }
  ⟨ar.agents, city2, ar.rng, pr.plans⟩

/-- Result of a whole run: final roster, city and rng, plus the per-day
plan sequences. -/
structure SimResult where
  agents : List Agent
  city : CityState
  rng : Rng
  plansPerDay : List (List (Int × PlannedAction))

/-- Method `CitySimulationEngine.run`: iterate the day loop a given number of days. -/
def runSim (agents : List Agent) (city : CityState) (rng : Rng) : Nat → SimResult
  | 0 => ⟨agents, city, rng, []⟩
  | n + 1 =>
    let d := runDay agents city rng
    let s := runSim d.agents d.city d.rng n
    ⟨s.agents, s.city, s.rng, d.plans :: s.plansPerDay⟩

/-- Roster from `CitySimulationEngine._create_default_agents`. -/
def create_default_agents : List Agent :=
  [ { id := 1, name := "Alice", role := "worker" },
    { id := 2, name := "Bob", role := "worker" },
    { id := 3, name := "Carla", role := "shop_owner" },
    { id := 4, name := "Daniel", role := "student" },
    { id := 5, name := "Eva", role := "police" },
    { id := 6, name := "Frank", role := "citizen" } ]

/-- Engine construction followed by `run`: fresh default
city state, default roster, injected rng, given day count. -/
def engineRun (rng : Rng) (agents : List Agent) (days : Nat) : SimResult :=
  runSim agents {} rng days


/-- Lower bound of the clamping idiom. -/
lemma clamp01_nonneg (x : Rat) : 0 ≤ clamp01 x := le_max_left 0 (min 1 x)

/-- Upper bound of the clamping idiom. -/
lemma clamp01_le_one (x : Rat) : clamp01 x ≤ 1 :=
  max_le (by norm_num) (min_le_left 1 x)

/-- Helper: `Agent.plan` returns its agent, city and context unchanged. -/
lemma plan_frame (a : Agent) (city : CityState) (ctx : DayContext) (rng : Rng) :
    (a.plan city ctx rng).agent = a ∧ (a.plan city ctx rng).city = city ∧
      (a.plan city ctx rng).ctx = ctx := by
  refine ⟨?_, ?_, ?_⟩ <;> (unfold Agent.plan; dsimp only; repeat' split) <;> rfl

/-- Helper: `Agent.plan` never returns a crime action. -/
lemma plan_ne_crime (a : Agent) (city : CityState) (ctx : DayContext) (rng : Rng) :
    (a.plan city ctx rng).action.action_type ≠ ActionType.crime := by
  unfold Agent.plan
  dsimp only
  repeat' split
  all_goals simp

/-- Helper: `Agent.act` preserves the day counter and appends exactly one
log entry, stamped with the current day. -/
lemma act_logs_aux (a : Agent) (p : PlannedAction) (c : CityState) (r : Rng) :
    ∃ e : ActionLogEntry, (Agent.act a p c r).city.logs = c.logs ++ [e] ∧
      e.day = c.day ∧ (Agent.act a p c r).city.day = c.day := by
  rcases p with ⟨t, tg, nt⟩
  cases t <;>
    (unfold Agent.act CityState.log_action; dsimp only; repeat' split) <;>
    exact ⟨_, rfl, rfl, rfl⟩

/-- Helper: executing a non-crime action preserves both crime counters. -/
lemma act_crime_stats (a : Agent) (p : PlannedAction) (c : CityState) (r : Rng)
    (h : p.action_type ≠ ActionType.crime) :
    (Agent.act a p c r).city.daily_stats.crime_attempts = c.daily_stats.crime_attempts ∧
      (Agent.act a p c r).city.daily_stats.crime_prevented = c.daily_stats.crime_prevented := by
  rcases p with ⟨t, tg, nt⟩
  cases t <;> simp only [] at h ⊢ <;>
    first
    | exact absurd rfl h
    | ((unfold Agent.act CityState.log_action; dsimp only; repeat' split) <;> exact ⟨rfl, rfl⟩)
/-- Helper: the planning phase leaves roster, city and context unchanged. -/
lemma citizen_planning_frame (ags : List Agent) (c : CityState) (ctx : DayContext) (r : Rng) :
    (citizen_planning ags c ctx r).agents = ags ∧
      (citizen_planning ags c ctx r).city = c ∧
      (citizen_planning ags c ctx r).ctx = ctx := by
  induction ags generalizing c ctx r with
  | nil => exact ⟨rfl, rfl, rfl⟩
  | cons a tail ih =>
    have hf := plan_frame a c ctx r
    simp only [citizen_planning, hf.1, hf.2.1, hf.2.2]
    have h2 := ih c ctx (a.plan c ctx r).rng
    exact ⟨by rw [h2.1], h2.2.1, h2.2.2⟩

/-- Helper: the plans dict binds exactly the roster ids, in roster order. -/
lemma citizen_planning_keys (ags : List Agent) (c : CityState) (ctx : DayContext) (r : Rng) :
    (citizen_planning ags c ctx r).plans.map Prod.fst = ags.map Agent.id := by
  induction ags generalizing c ctx r with
  | nil => rfl
  | cons a tail ih =>
    have hf := plan_frame a c ctx r
    simp only [citizen_planning, List.map_cons, hf.1, hf.2.1, hf.2.2]
    rw [ih c ctx (a.plan c ctx r).rng]

/-- Helper: every plan recorded by the planning phase is a non-crime action. -/
lemma citizen_planning_no_crime (ags : List Agent) (c : CityState) (ctx : DayContext) (r : Rng) :
    ∀ kv ∈ (citizen_planning ags c ctx r).plans,
      (kv.2 : PlannedAction).action_type ≠ ActionType.crime := by
  induction ags generalizing c ctx r with
  | nil => intro kv h; simp [citizen_planning] at h
  | cons a tail ih =>
    intro kv h
    simp only [citizen_planning, List.mem_cons] at h
    rcases h with h | h
    · rw [h]
      exact plan_ne_crime a c ctx r
    · exact ih _ _ _ kv h

/-- Helper: the planning phase records one plan per roster agent. -/
lemma citizen_planning_length (ags : List Agent) (c : CityState) (ctx : DayContext) (r : Rng) :
    (citizen_planning ags c ctx r).plans.length = ags.length := by
  have h := citizen_planning_keys ags c ctx r
  have h2 := congrArg List.length h
  simpa using h2

/-- Helper: dict lookup succeeds for every key present in the dict. -/
lemma dictGet_isSome (l : List (Int × PlannedAction)) (k : Int)
    (h : k ∈ l.map Prod.fst) : (dictGet l k).isSome := by
  induction l with
  | nil => simp at h
  | cons kv tail ih =>
    rcases kv with ⟨k0, v0⟩
    simp only [List.map_cons, List.mem_cons] at h
    cases h2 : dictGet tail k with
    | some v => simp [dictGet, h2]
    | none =>
      rcases h with h | h
      · subst h
        simp [dictGet, h2]
      · have := ih h
        rw [h2] at this
        simp at this

/-- Helper: a value returned by dict lookup is bound in the dict. -/
lemma dictGet_mem (l : List (Int × PlannedAction)) (k : Int) (v : PlannedAction)
    (h : dictGet l k = some v) : ∃ k2, (k2, v) ∈ l := by
  induction l with
  | nil => simp [dictGet] at h
  | cons kv tail ih =>
    rcases kv with ⟨k0, v0⟩
    simp only [dictGet] at h
    cases h2 : dictGet tail k with
    | some v2 =>
      rw [h2] at h
      rcases ih (by rw [h2, ← h]) with ⟨k2, hk2⟩
      exact ⟨k2, List.mem_cons_of_mem _ hk2⟩
    | none =>
      rw [h2] at h
      by_cases he : k0 = k
      · simp [he] at h
        exact ⟨k0, by rw [h]; exact List.mem_cons_self _ _⟩
      · simp [he] at h
/-- Helper: when every recorded plan is non-crime, the actions phase
preserves both crime counters. -/
lemma citizen_actions_crime (ags : List Agent) (plans : List (Int × PlannedAction))
    (c : CityState) (r : Rng)
    (hplans : ∀ kv ∈ plans, (kv.2 : PlannedAction).action_type ≠ ActionType.crime) :
    (citizen_actions ags plans c r).city.daily_stats.crime_attempts
        = c.daily_stats.crime_attempts ∧
      (citizen_actions ags plans c r).city.daily_stats.crime_prevented
        = c.daily_stats.crime_prevented := by
  induction ags generalizing c r with
  | nil => exact ⟨rfl, rfl⟩
  | cons a tail ih =>
    cases hd : dictGet plans a.id with
    | none =>
      simp only [citizen_actions, hd]
      exact ih c r
    | some p =>
      have hmem := dictGet_mem plans a.id p hd
      rcases hmem with ⟨k2, hk2⟩
      have hnc : p.action_type ≠ ActionType.crime := hplans (k2, p) hk2
      have hact := act_crime_stats a p c r hnc
      simp only [citizen_actions, hd]
      have h2 := ih (a.act p c r).city (a.act p c r).rng
      exact ⟨h2.1.trans hact.1, h2.2.trans hact.2⟩

/-- Helper: when every roster agent has a recorded plan, the actions phase
appends one entry per agent, each stamped with the current day, and keeps
the day counter. -/
lemma citizen_actions_logs (ags : List Agent) (plans : List (Int × PlannedAction))
    (c : CityState) (r : Rng)
    (hcover : ∀ a ∈ ags, (dictGet plans a.id).isSome) :
    ∃ new : List ActionLogEntry,
      (citizen_actions ags plans c r).city.logs = c.logs ++ new ∧
        new.length = ags.length ∧ (∀ e ∈ new, e.day = c.day) ∧
        (citizen_actions ags plans c r).city.day = c.day := by
  induction ags generalizing c r with
  | nil => exact ⟨[], by simp [citizen_actions], rfl, by simp, rfl⟩
  | cons a tail ih =>
    have hs := hcover a (List.mem_cons_self a tail)
    cases hd : dictGet plans a.id with
    | none => rw [hd] at hs; simp at hs
    | some p =>
      simp only [citizen_actions, hd]
      obtain ⟨e, hlog, hday, hcity⟩ := act_logs_aux a p c r
      obtain ⟨new2, hlog2, hlen2, hdays2, hday2⟩ :=
        ih (a.act p c r).city (a.act p c r).rng (fun x hx => hcover x (List.mem_cons_of_mem a hx))
      refine ⟨e :: new2, ?_, ?_, ?_, ?_⟩
      · rw [hlog2, hlog, List.append_assoc, List.singleton_append]
      · simp [hlen2]
      · intro x hx
        rcases List.mem_cons.mp hx with hx | hx
        · rw [hx]; exact hday
        · exact (hdays2 x hx).trans hcity
      · exact hday2.trans hcity
/-- Helper: the city-update phase does not touch the daily stats. -/
lemma city_update_stats (x : CityState) : (city_update x).daily_stats = x.daily_stats := rfl

/-- Helper: the city-update phase does not touch the log. -/
lemma city_update_logs (x : CityState) : (city_update x).logs = x.logs := rfl

/-- Helper: the city-update phase does not touch the day counter. -/
lemma city_update_day (x : CityState) : (city_update x).day = x.day := rfl

/-- Helper: after one engine-driven day both crime counters are zero. -/
lemma runDay_crime (ags : List Agent) (c : CityState) (r : Rng) :
    (runDay ags c r).city.daily_stats.crime_attempts = 0 ∧
      (runDay ags c r).city.daily_stats.crime_prevented = 0 := by
  unfold runDay
  dsimp only [city_update_stats]
  generalize hctx : day_context c.reset_daily_stats r = cr
  generalize hpr : citizen_planning ags c.reset_daily_stats cr.1 cr.2 = pr
  have hnc := citizen_planning_no_crime ags c.reset_daily_stats cr.1 cr.2
  have hframe := citizen_planning_frame ags c.reset_daily_stats cr.1 cr.2
  rw [hpr] at hnc hframe
  have hca := citizen_actions_crime pr.agents pr.plans pr.city pr.rng hnc
  exact ⟨hca.1.trans (by rw [hframe.2.1]; rfl), hca.2.trans (by rw [hframe.2.1]; rfl)⟩

/-- Helper: one engine-driven day records one plan per roster agent and
appends one log entry per roster agent, each stamped with the day. -/
lemma runDay_logs (ags : List Agent) (c : CityState) (r : Rng) :
    (runDay ags c r).plans.length = ags.length ∧
      ∃ new : List ActionLogEntry,
        (runDay ags c r).city.logs = c.logs ++ new ∧ new.length = ags.length ∧
          ∀ e ∈ new, e.day = c.day := by
  unfold runDay
  dsimp only [city_update_logs]
  generalize hctx : day_context c.reset_daily_stats r = cr
  generalize hpr : citizen_planning ags c.reset_daily_stats cr.1 cr.2 = pr
  have hkeys := citizen_planning_keys ags c.reset_daily_stats cr.1 cr.2
  have hlen := citizen_planning_length ags c.reset_daily_stats cr.1 cr.2
  have hframe := citizen_planning_frame ags c.reset_daily_stats cr.1 cr.2
  rw [hpr] at hkeys hlen hframe
  have hcover : ∀ a ∈ pr.agents, (dictGet pr.plans a.id).isSome := by
    intro a ha
    apply dictGet_isSome
    rw [hkeys, hframe.1] at *
    exact List.mem_map_of_mem Agent.id ha
  obtain ⟨new, hlog, hlen2, hdays, -⟩ :=
    citizen_actions_logs pr.agents pr.plans pr.city pr.rng hcover
  refine ⟨hlen, new, ?_, ?_, ?_⟩
  · rw [hlog, hframe.2.1]; rfl
  · rw [hlen2, hframe.1]
  · intro e he
    have := hdays e he
    rw [hframe.2.1] at this
    exact this

/-- Helper: after any engine run of at least one day both crime counters
are zero. -/
lemma runSim_crime (ags : List Agent) (c : CityState) (r : Rng) (days : Nat)
    (h : 1 ≤ days) :
    (runSim ags c r days).city.daily_stats.crime_attempts = 0 ∧
      (runSim ags c r days).city.daily_stats.crime_prevented = 0 := by
  induction days generalizing ags c r with
  | zero => omega
  | succ n ih =>
    cases n with
    | zero =>
      have := runDay_crime ags c r
      simpa [runSim] using this
    | succ m =>
      have := ih (runDay ags c r).agents (runDay ags c r).city (runDay ags c r).rng (by omega)
      simpa [runSim] using this
/-- C2: one application of the CITY_UPDATE phase computes
economy' = (economy + 0.5*work_count + 0.3*shop_count) * 0.995 with the
decay applied after the additive term and no clamping, while safety and
happiness get their linear updates followed by a clamp to [0,1]. -/
theorem city_update_formula (c : CityState) :
    (city_update c).economy =
        (c.economy + 1/2 * c.daily_stats.work_count
          + 3/10 * c.daily_stats.shop_count) * (995/1000) ∧
      (city_update c).safety =
        clamp01 (c.safety + 1/100 * c.daily_stats.patrol_count
          - 3/100 * c.daily_stats.crime_attempts
          + 2/100 * c.daily_stats.crime_prevented) ∧
      (city_update c).happiness =
        clamp01 (c.happiness + 1/100 * c.daily_stats.social_interactions
          + 5/1000 * c.daily_stats.rest_count
          - 15/1000 * c.daily_stats.crime_attempts) :=
  ⟨rfl, rfl, rfl⟩

/-- C3: an agent with energy below 0.3 always plans rest, for every role,
city, context and rng state: the fatigue check precedes role dispatch. -/
theorem fatigue_override (a : Agent) (city : CityState) (ctx : DayContext)
    (rng : Rng) (h : a.energy < 3/10) :
    (a.plan city ctx rng).action.action_type = ActionType.rest := by
  unfold Agent.plan
  rw [if_pos h]

/-- Witness for C3 at a concrete exhausted worker and a draw that would
otherwise pick work. -/
theorem fatigue_override_witness :
    (Agent.plan ⟨1, "Alice", "worker", 50, 1/5, 1/2⟩ {} ⟨1, "sunny", []⟩
        ⟨fun _ => 99/100, 0⟩).action.action_type = ActionType.rest :=
  fatigue_override ⟨1, "Alice", "worker", 50, 1/5, 1/2⟩ {} ⟨1, "sunny", []⟩
    ⟨fun _ => 99/100, 0⟩ (by norm_num)

/-- C9: `Agent.plan` mutates neither the agent nor the city nor the day
context; only the rng advances. -/
theorem plan_is_pure (a : Agent) (city : CityState) (ctx : DayContext) (rng : Rng) :
    (a.plan city ctx rng).agent = a ∧ (a.plan city ctx rng).city = city ∧
      (a.plan city ctx rng).ctx = ctx :=
  plan_frame a city ctx rng
/-- C4: after every `Agent.act` the agent's energy and mood lie in [0,1];
after every CITY_UPDATE the city's safety and happiness lie in [0,1];
economy is not clamped (it can go negative). -/
theorem post_update_bounds :
    (∀ (a : Agent) (p : PlannedAction) (c : CityState) (r : Rng),
      0 ≤ (Agent.act a p c r).agent.energy ∧ (Agent.act a p c r).agent.energy ≤ 1 ∧
        0 ≤ (Agent.act a p c r).agent.mood ∧ (Agent.act a p c r).agent.mood ≤ 1) ∧
      (∀ c : CityState,
        0 ≤ (city_update c).safety ∧ (city_update c).safety ≤ 1 ∧
          0 ≤ (city_update c).happiness ∧ (city_update c).happiness ≤ 1) ∧
      (∃ c : CityState, (city_update c).economy < 0) := by
  refine ⟨?_, ?_, ?_⟩
  · intro a p c r
    exact ⟨clamp01_nonneg _, clamp01_le_one _, clamp01_nonneg _, clamp01_le_one _⟩
  · intro c
    exact ⟨clamp01_nonneg _, clamp01_le_one _, clamp01_nonneg _, clamp01_le_one _⟩
  · refine ⟨⟨1, -100, 4/5, 4/5, {}, []⟩, ?_⟩
    norm_num [city_update, CityState.clamp_metrics]

/-- C6: a rested shop_owner draws one sample p and follows the cascade:
rest only when the economy is below 80 and p falls in the first 0.30 of
mass; otherwise shop when p is below 0.75; otherwise socialize.  In
particular, with a bad economy and p between 0.30 and 0.75 the result is
shop, not rest. -/
theorem shop_owner_policy (a : Agent) (city : CityState) (ctx : DayContext)
    (rng : Rng) (hrole : a.role = "shop_owner") (he : 3/10 ≤ a.energy) :
    ((a.plan city ctx rng).action.action_type =
        if city.economy < 80 ∧ rng.stream rng.idx < 3/10 then ActionType.rest
        else if rng.stream rng.idx < 3/4 then ActionType.shop
        else ActionType.socialize) ∧
      (a.plan city ctx rng).rng.stream = rng.stream ∧
      (a.plan city ctx rng).rng.idx = rng.idx + 1 ∧
      (city.economy < 80 → 3/10 ≤ rng.stream rng.idx → rng.stream rng.idx < 3/4 →
        (a.plan city ctx rng).action.action_type = ActionType.shop) := by
  have h1 : ¬ a.energy < 3/10 := not_lt.2 he
  have h2 : ¬ a.role = "worker" := by rw [hrole]; decide
  unfold Agent.plan
  rw [if_neg h1, if_neg h2, if_pos hrole]
  dsimp only [Rng.random]
  refine ⟨?_, ?_, ?_, ?_⟩
  · by_cases hc : city.economy < 80 ∧ rng.stream rng.idx < 3/10
    · rw [if_pos hc, if_pos hc]
    · rw [if_neg hc, if_neg hc]
      by_cases hd : rng.stream rng.idx < 3/4
      · rw [if_pos hd, if_pos hd]
      · rw [if_neg hd, if_neg hd]
  · repeat' split
    all_goals rfl
  · repeat' split
    all_goals rfl
  · intro hec h3 h4
    have hc : ¬ (city.economy < 80 ∧ rng.stream rng.idx < 3/10) := by
      intro hcon
      exact absurd hcon.2 (not_lt.2 h3)
    rw [if_neg hc, if_pos h4]

/-- Witness for C6: economy 70 (below 80) and draw 0.5 in [0.30, 0.75)
still yields shop. -/
theorem shop_owner_policy_witness :
    (Agent.plan ⟨3, "Carla", "shop_owner", 50, 1, 1/2⟩ ⟨1, 70, 4/5, 4/5, {}, []⟩
        ⟨1, "sunny", []⟩ ⟨fun _ => 1/2, 0⟩).action.action_type = ActionType.shop :=
  (shop_owner_policy ⟨3, "Carla", "shop_owner", 50, 1, 1/2⟩ ⟨1, 70, 4/5, 4/5, {}, []⟩
      ⟨1, "sunny", []⟩ ⟨fun _ => 1/2, 0⟩ rfl (by norm_num)).2.2.2
    (by norm_num) (by norm_num) (by norm_num)

/-- C7: a crime whose success draw fails drops the agent's mood by exactly
0.2 before clamping, increments crime_prevented, and leaves safety
untouched; crime_attempts is incremented for every draw. -/
theorem crime_failure_path (a : Agent) (pl : PlannedAction) (c : CityState) (r : Rng)
    (hp : pl.action_type = ActionType.crime)
    (hfail : ¬ r.stream r.idx < 3/10 + (1/2 - c.safety)) :
    (Agent.act a pl c r).agent.mood = clamp01 (a.mood - 2/10) ∧
      (Agent.act a pl c r).city.daily_stats.crime_prevented
        = c.daily_stats.crime_prevented + 1 ∧
      (Agent.act a pl c r).city.safety = c.safety ∧
      ∀ r2 : Rng, (Agent.act a pl c r2).city.daily_stats.crime_attempts
        = c.daily_stats.crime_attempts + 1 := by
  refine ⟨?_, ?_, ?_, ?_⟩
  · unfold Agent.act
    rw [hp]
    dsimp only [Rng.random]
    rw [if_neg hfail]
    try rfl
  · unfold Agent.act
    rw [hp]
    dsimp only [Rng.random]
    rw [if_neg hfail]
    try rfl
  · unfold Agent.act
    rw [hp]
    dsimp only [Rng.random]
    rw [if_neg hfail]
    try rfl
  · intro r2
    unfold Agent.act
    rw [hp]
    dsimp only [Rng.random]
    split
    all_goals rfl

/-- Witness for C7: default city safety 0.8 makes the success probability
0.3 + (0.5 - 0.8) = 0, so a draw of 0 fails. -/
theorem crime_failure_path_witness :
    (Agent.act ⟨6, "Frank", "citizen", 50, 1, 1/2⟩ ⟨ActionType.crime, none, ""⟩
        {} ⟨fun _ => 0, 0⟩).agent.mood = clamp01 (1/2 - 2/10) ∧
      (Agent.act ⟨6, "Frank", "citizen", 50, 1, 1/2⟩ ⟨ActionType.crime, none, ""⟩
        {} ⟨fun _ => 0, 0⟩).city.daily_stats.crime_prevented = 0 + 1 ∧
      (Agent.act ⟨6, "Frank", "citizen", 50, 1, 1/2⟩ ⟨ActionType.crime, none, ""⟩
        {} ⟨fun _ => 0, 0⟩).city.daily_stats.crime_attempts = 0 + 1 := by
  have h := crime_failure_path ⟨6, "Frank", "citizen", 50, 1, 1/2⟩
    ⟨ActionType.crime, none, ""⟩ {} ⟨fun _ => 0, 0⟩ rfl (by norm_num)
  exact ⟨h.1, h.2.1, h.2.2.2 ⟨fun _ => 0, 0⟩⟩
/-- Counterexample to C1 as stated: a shop attempt with money 0 leaves
shop_count at 0; it is not incremented. -/
theorem shop_without_funds_counterexample :
    ¬ ((Agent.act ⟨1, "Alice", "worker", 0, 1, 1/2⟩ ⟨ActionType.shop, some "store", ""⟩
          {} ⟨fun _ => 0, 0⟩).city.daily_stats.shop_count
        = ({} : CityState).daily_stats.shop_count + 1) := by
  norm_num [Agent.act, CityState.log_action]

/-- C1 amended: a shop attempt by an agent with money below 5 leaves the
agent's money, the city's economy and shop_count all unchanged; only the
log entry's description differs. -/
theorem shop_without_funds_amended (a : Agent) (pl : PlannedAction) (c : CityState)
    (r : Rng) (hp : pl.action_type = ActionType.shop) (hm : a.money < 5) :
    (Agent.act a pl c r).agent.money = a.money ∧
      (Agent.act a pl c r).city.economy = c.economy ∧
      (Agent.act a pl c r).city.daily_stats.shop_count = c.daily_stats.shop_count := by
  have h : ¬ a.money ≥ 5 := not_le.2 hm
  unfold Agent.act
  rw [hp]
  dsimp only
  rw [if_neg h]
  exact ⟨rfl, rfl, rfl⟩

/-- Witness for the amended C1 at a broke agent in the default city. -/
theorem shop_without_funds_amended_witness :
    (Agent.act ⟨1, "Alice", "worker", 0, 1, 1/2⟩ ⟨ActionType.shop, some "store", ""⟩
        {} ⟨fun _ => 0, 0⟩).agent.money = 0 ∧
      (Agent.act ⟨1, "Alice", "worker", 0, 1, 1/2⟩ ⟨ActionType.shop, some "store", ""⟩
        {} ⟨fun _ => 0, 0⟩).city.economy = 100 ∧
      (Agent.act ⟨1, "Alice", "worker", 0, 1, 1/2⟩ ⟨ActionType.shop, some "store", ""⟩
        {} ⟨fun _ => 0, 0⟩).city.daily_stats.shop_count = 0 :=
  shop_without_funds_amended ⟨1, "Alice", "worker", 0, 1, 1/2⟩
    ⟨ActionType.shop, some "store", ""⟩ {} ⟨fun _ => 0, 0⟩ rfl (by norm_num)

/-- C5: two engine runs with the same rng state, the same roster and the
same day count produce identical plan sequences, identical logs and an
identical final city state. -/
theorem run_determinism (r1 r2 : Rng) (ag1 ag2 : List Agent) (d1 d2 : Nat)
    (hr : r1 = r2) (ha : ag1 = ag2) (hd : d1 = d2) :
    (engineRun r1 ag1 d1).plansPerDay = (engineRun r2 ag2 d2).plansPerDay ∧
      (engineRun r1 ag1 d1).city.logs = (engineRun r2 ag2 d2).city.logs ∧
      (engineRun r1 ag1 d1).city = (engineRun r2 ag2 d2).city := by
  subst hr
  subst ha
  subst hd
  exact ⟨rfl, rfl, rfl⟩

/-- Witness for C5 on the default roster, one day, a concrete rng. -/
theorem run_determinism_witness :
    (engineRun ⟨fun _ => 0, 0⟩ create_default_agents 1).plansPerDay
        = (engineRun ⟨fun _ => 0, 0⟩ create_default_agents 1).plansPerDay ∧
      (engineRun ⟨fun _ => 0, 0⟩ create_default_agents 1).city.logs
        = (engineRun ⟨fun _ => 0, 0⟩ create_default_agents 1).city.logs ∧
      (engineRun ⟨fun _ => 0, 0⟩ create_default_agents 1).city
        = (engineRun ⟨fun _ => 0, 0⟩ create_default_agents 1).city :=
  run_determinism ⟨fun _ => 0, 0⟩ ⟨fun _ => 0, 0⟩ create_default_agents
    create_default_agents 1 1 rfl rfl rfl

/-- C8: every `Agent.act` appends exactly one log entry stamped with the
current day and never rewrites old entries; a full engine day records one
plan per roster agent and appends one entry per roster agent, all stamped
with that day. -/
theorem act_logs_once :
    (∀ (a : Agent) (p : PlannedAction) (c : CityState) (r : Rng),
      (Agent.act a p c r).city.logs.length = c.logs.length + 1 ∧
        (Agent.act a p c r).city.logs.take c.logs.length = c.logs ∧
        ((Agent.act a p c r).city.logs.drop c.logs.length).all
          (fun e => e.day == c.day) = true) ∧
      (∀ (ags : List Agent) (c : CityState) (r : Rng),
        (runDay ags c r).plans.length = ags.length ∧
          (runDay ags c r).city.logs.length = c.logs.length + ags.length ∧
          (runDay ags c r).city.logs.take c.logs.length = c.logs ∧
          ((runDay ags c r).city.logs.drop c.logs.length).all
            (fun e => e.day == c.day) = true) := by
  constructor
  · intro a p c r
    obtain ⟨e, hlog, hday, -⟩ := act_logs_aux a p c r
    rw [hlog]
    refine ⟨by simp, List.take_left _ _, ?_⟩
    rw [List.drop_left]
    simp [hday]
  · intro ags c r
    obtain ⟨hplen, new, hlog, hlen, hdays⟩ := runDay_logs ags c r
    rw [hlog]
    refine ⟨hplen, by simp [hlen], List.take_left _ _, ?_⟩
    rw [List.drop_left]
    simp only [List.all_eq_true]
    intro e he
    simp [hdays e he]

/-- C10: `Agent.plan` never returns a crime action, for any role string,
energy, city, context and draw; consequently after any engine-driven day,
and after any engine run of at least one day, both crime counters are
zero and the crime branch of `Agent.act` is never exercised. -/
theorem plan_never_crime :
    (∀ (a : Agent) (c : CityState) (ctx : DayContext) (r : Rng),
      (a.plan c ctx r).action.action_type ≠ ActionType.crime) ∧
      (∀ (ags : List Agent) (c : CityState) (r : Rng),
        (runDay ags c r).city.daily_stats.crime_attempts = 0 ∧
          (runDay ags c r).city.daily_stats.crime_prevented = 0) ∧
      (∀ (ags : List Agent) (c : CityState) (r : Rng) (days : Nat), 1 ≤ days →
        (runSim ags c r days).city.daily_stats.crime_attempts = 0 ∧
          (runSim ags c r days).city.daily_stats.crime_prevented = 0) :=
  ⟨plan_ne_crime, runDay_crime, fun ags c r days h => runSim_crime ags c r days h⟩

/-- Witness for C10 on the default roster, default city, one day. -/
theorem plan_never_crime_witness :
    (runSim create_default_agents {} ⟨fun _ => 0, 0⟩ 1).city.daily_stats.crime_attempts
        = 0 ∧
      (runSim create_default_agents {} ⟨fun _ => 0, 0⟩ 1).city.daily_stats.crime_prevented
        = 0 :=
  plan_never_crime.2.2 create_default_agents {} ⟨fun _ => 0, 0⟩ 1 (by norm_num)
